import Mathlib

/-!
Pod controller of the NSX container plugin operator.

A shallow embedding of `pkg/controller/pod/pod_controller.go` together with the
fields of `pkg/controller/sharedinfo/shared_info.go` that the controller reads.

The controller talks to collaborators that live outside the repository: the
cluster client (`Get`, `List`, `Delete`), `SetControllerReference`,
`ApplyObject`, the log stream of a pod and the status manager.  Every call to a
collaborator is recorded as an `Event` appended to a trace, and what the
collaborator answers is given by a `Cluster`, a record of functions that may
depend on the whole trace of calls issued so far (so an answer may change from
one call to the next).  Go pointers that may be nil are `Option`s; calling a
method on a nil `*unstructured.Unstructured` panics, which is the `panicked`
result.  Logging is not part of the model.
-/

namespace PodController

/-! ## Data model -/

/-- Go errors: an error returned by a collaborator (with the answer
`apierrors.IsNotFound` gives on it), `errors.New` and `errors.Wrapf`. -/
inductive GoError where
  | external (isNotFound : Bool) (msg : String)
  | new (msg : String)
  | wrapf (cause : GoError) (msg : String)
deriving DecidableEq, Repr

/-- The `Error()` text of an error. -/
def GoError.Error : GoError → String
  | .external _ msg => msg
  | .new msg => msg
  | .wrapf cause msg => msg ++ ": " ++ cause.Error

/-- The predicate `apierrors.IsNotFound`. -/
def IsNotFound : GoError → Bool
  | .external b _ => b
  | .new _ => false
  | .wrapf _ _ => false

/-- The type `types.NamespacedName`. -/
structure NamespacedName where
  Namespace : String
  Name : String
deriving DecidableEq, Repr

/-- The constants of `pkg/types` used by the controller; the package is not
part of the sources, so its constants are parameters of every definition. -/
structure OperatorTypes where
  NsxNamespace : String
  NsxNcpDeploymentName : String
  NsxNodeAgentDsName : String
  NsxNcpBootstrapDsName : String
  NsxNodeAgentContainerName : String
deriving DecidableEq, Repr

/-- The umbrella object `configv1.Network`. -/
structure Network where
  name : String
deriving DecidableEq, Repr

/-- An `unstructured.Unstructured` object: what its accessors
`GroupVersionKind()`, `GetNamespace()` and `GetName()` render, and its body. -/
structure Unstructured where
  GroupVersionKind : String
  Namespace : String
  Name : String
  Body : String
deriving DecidableEq, Repr

/-- The method `DeepCopy` of `*unstructured.Unstructured`: nil for nil,
otherwise a copy with the same content. -/
def Unstructured.DeepCopy (u : Option Unstructured) : Option Unstructured :=
  match u with
  | none => none
  | some o => some o

/-- The fields of `sharedinfo.SharedInfo` read by the pod controller. -/
structure SharedInfo where
  NetworkConfig : Option Network
  NsxNodeAgentDsSpec : Option Unstructured
  NsxNcpBootstrapDsSpec : Option Unstructured
  NsxNcpDeploymentSpec : Option Unstructured
deriving DecidableEq, Repr

/-- The typed empty object handed to `client.Get`. -/
inductive Instance where
  | DaemonSet
  | Deployment
deriving DecidableEq, Repr

/-- The type `corev1.ContainerStateWaiting`. -/
structure ContainerStateWaiting where
  Reason : String
  Message : String
deriving DecidableEq, Repr

/-- The type `corev1.ContainerState`, of which only `Waiting` is read. -/
structure ContainerState where
  Waiting : Option ContainerStateWaiting
deriving DecidableEq, Repr

/-- The type `corev1.ContainerStatus`. -/
structure ContainerStatus where
  Name : String
  State : ContainerState
deriving DecidableEq, Repr

/-- The type `corev1.Pod`, with the fields the controller reads. -/
structure Pod where
  Namespace : String
  Name : String
  ContainerStatuses : List ContainerStatus
deriving DecidableEq, Repr

/-- The type `corev1.PodLogOptions`. -/
structure PodLogOptions where
  Container : String
  Previous : Bool
  TailLines : Option Int
deriving DecidableEq, Repr

/-- The type `metav1.DeletionPropagation`. -/
inductive DeletionPropagation where
  | Orphan
  | Background
  | Foreground
deriving DecidableEq, Repr

/-- The status levels of the status manager; the controller uses
`statusmanager.OperatorConfig`. -/
inductive StatusLevel where
  | OperatorConfig
deriving DecidableEq, Repr

/-- The type `reconcile.Result`; `RequeueAfter` is a `time.Duration`, a number
of nanoseconds. -/
structure Result where
  Requeue : Bool
  RequeueAfter : Int
deriving DecidableEq, Repr

/-- The type `reconcile.Request`. -/
structure Request where
  Namespace : String
  Name : String
deriving DecidableEq, Repr

/-- A call issued to a collaborator. -/
inductive Event where
  | SetFromPods
  | Get (inst : Instance) (key : NamespacedName)
  | SetControllerReference (owner : Network) (obj : Option Unstructured)
  | ApplyObject (obj : Option Unstructured)
  | SetDegraded (level : StatusLevel) (reason : String) (message : String)
  | List (labelSelector : List (String × String))
  | GetLogs (ns : String) (name : String) (opts : PodLogOptions)
  | Delete (pod : Pod) (gracePeriodSeconds : Int) (policy : DeletionPropagation)
deriving DecidableEq, Repr

/-- The stream returned by `GetLogs(...).Stream()`: what `io.Copy` reads from
it, a text or an error. -/
structure LogStream where
  read : Except GoError String

/-- The answers of the collaborators.  Each function receives the trace of the
calls issued before the call it answers. -/
structure Cluster where
  /-- Answer of `client.Get`: nil, or an error. -/
  get : List Event → Instance → NamespacedName → Option GoError
  /-- Value returned by `SetControllerReference`. -/
  setControllerReference : List Event → Network → Option Unstructured → Option GoError
  /-- The object as `SetControllerReference` leaves it. -/
  controllerReferenceSet : List Event → Network → Unstructured → Unstructured
  /-- Value returned by `ApplyObject`. -/
  applyObject : List Event → Option Unstructured → Option GoError
  /-- Answer of `client.List` for pods under a label selector. -/
  list : List Event → List (String × String) → Except GoError (List Pod)
  /-- Value returned by `rest.InClusterConfig`. -/
  inClusterConfig : List Event → Option GoError
  /-- Value returned by `kubernetes.NewForConfig`. -/
  newForConfig : List Event → Option GoError
  /-- Answer of `GetLogs(name, opts).Stream()` in a namespace. -/
  stream : List Event → String → String → PodLogOptions → Except GoError LogStream
  /-- Answer of `client.Delete`. -/
  delete : List Event → Pod → Int → DeletionPropagation → Option GoError

/-- How a Go call ends: it returns a value, or it panics. -/
inductive Res (α : Type) where
  | ret (a : α)
  | panicked
deriving DecidableEq, Repr

/-- The receiver `ReconcilePod`; its `client`, `scheme` and `status` are the
collaborators of `Cluster`. -/
structure ReconcilePod where
  sharedInfo : SharedInfo
  nsxNcpResources : List NamespacedName
deriving DecidableEq, Repr

/-! ## Constants and the table of managed resources -/

/-- The constant `time.Minute`, in nanoseconds. -/
def Minute : Int := 60 * 1000000000

/-- The variable `ResyncPeriod`. -/
def ResyncPeriod : Int := 2 * Minute

/-- The function `getNsxSystemNsName`. -/
def getNsxSystemNsName (ot : OperatorTypes) : String :=
  ot.NsxNamespace

/-- The function `getNsxNcpDeployments`. -/
def getNsxNcpDeployments (ot : OperatorTypes) (nsxSystemNs : String) : List NamespacedName :=
  [{ Namespace := nsxSystemNs, Name := ot.NsxNcpDeploymentName }]

/-- The function `getNsxNcpDs`. -/
def getNsxNcpDs (ot : OperatorTypes) (nsxSystemNs : String) : List NamespacedName :=
  [{ Namespace := nsxSystemNs, Name := ot.NsxNodeAgentDsName },
   { Namespace := nsxSystemNs, Name := ot.NsxNcpBootstrapDsName }]

/-- The function `mergeAndGetNsxNcpResources`. -/
def mergeAndGetNsxNcpResources (resources : List (List NamespacedName)) : List NamespacedName :=
  resources.foldl (fun result resource => result ++ resource) []

/-- The function `newReconciler`, as far as it builds the receiver. -/
def newReconciler (ot : OperatorTypes) (sharedInfo : SharedInfo) : ReconcilePod :=
  let nsxSystemNs := getNsxSystemNsName ot
  let nsxNcpDs := getNsxNcpDs ot nsxSystemNs
  let nsxNcpDeployments := getNsxNcpDeployments ot nsxSystemNs
  { sharedInfo := sharedInfo,
    nsxNcpResources := mergeAndGetNsxNcpResources [nsxNcpDs, nsxNcpDeployments] }

/-- The method `isForNsxNcpResource`. -/
def isForNsxNcpResource (r : ReconcilePod) (request : Request) : Bool :=
  r.nsxNcpResources.any
    (fun nsxNcpResource =>
      decide (nsxNcpResource.Namespace = request.Namespace ∧ nsxNcpResource.Name = request.Name))

/-! ## Drift detection and recreation -/

/-- The function `identifyAndGetInstance`. -/
def identifyAndGetInstance (ot : OperatorTypes) (resName : String) : Instance :=
  if resName = ot.NsxNcpBootstrapDsName ∨ resName = ot.NsxNodeAgentDsName then
    Instance.DaemonSet
  else
    Instance.Deployment

/-- The method `identifyAndGetK8SObjToCreate`. -/
def identifyAndGetK8SObjToCreate (ot : OperatorTypes) (r : ReconcilePod) (resName : String) :
    Option Unstructured :=
  if resName = ot.NsxNcpBootstrapDsName then
    Unstructured.DeepCopy r.sharedInfo.NsxNcpBootstrapDsSpec
  else if resName = ot.NsxNodeAgentDsName then
    Unstructured.DeepCopy r.sharedInfo.NsxNodeAgentDsSpec
  else
    Unstructured.DeepCopy r.sharedInfo.NsxNcpDeploymentSpec

/-- The method `checkIfK8sResourceExists`: the pair it returns and the trace. -/
def checkIfK8sResourceExists (c : Cluster) (h : List Event) (inst : Instance)
    (instanceDetails : NamespacedName) : (Bool × Option GoError) × List Event :=
  let h1 := h ++ [Event.Get inst instanceDetails]
  match c.get h inst instanceDetails with
  | some err => if IsNotFound err then ((false, none), h1) else ((false, some err), h1)
  | none => ((true, none), h1)

/-- The text of `"(%s) %s/%s"` for an object; nil has no accessors. -/
def describeObj (obj : Option Unstructured) : Res String :=
  match obj with
  | none => Res.panicked
  | some o => Res.ret ("(" ++ o.GroupVersionKind ++ ") " ++ o.Namespace ++ "/" ++ o.Name)

/-- The method `createK8sObject`: the error it returns (or a panic) and the
trace. -/
def createK8sObject (c : Cluster) (r : ReconcilePod) (h : List Event)
    (obj : Option Unstructured) : Res (Option GoError) × List Event :=
  match r.sharedInfo.NetworkConfig with
  | none =>
    (Res.ret (some (GoError.new
      "NetworkConfig empty. Waiting for config_map controller to set it")), h)
  | some networkConfig =>
    let h1 := h ++ [Event.SetControllerReference networkConfig obj]
    let obj1 := obj.map (c.controllerReferenceSet h networkConfig)
    match c.setControllerReference h networkConfig obj with
    | some err =>
      match describeObj obj1 with
      | Res.panicked => (Res.panicked, h1)
      | Res.ret d =>
        let err1 := GoError.wrapf err ("could not set reference for " ++ d)
        (Res.ret (some err1),
          h1 ++ [Event.SetDegraded StatusLevel.OperatorConfig "ApplyObjectsError"
            ("Failed to apply objects: " ++ err1.Error)])
    | none =>
      let h2 := h1 ++ [Event.ApplyObject obj1]
      match c.applyObject h1 obj1 with
      | some err =>
        match describeObj obj1 with
        | Res.panicked => (Res.panicked, h2)
        | Res.ret _ =>
          (Res.ret (some err),
            h2 ++ [Event.SetDegraded StatusLevel.OperatorConfig "ApplyOperatorConfig"
              ("Failed to apply operator configuration: " ++ err.Error)])
      | none => (Res.ret none, h2)

/-- The method `recreateNsxNcpResourceIfDeleted`. -/
def recreateNsxNcpResourceIfDeleted (ot : OperatorTypes) (c : Cluster) (r : ReconcilePod)
    (h : List Event) (resName : String) : Res (Option GoError) × List Event :=
  let inst := identifyAndGetInstance ot resName
  let instanceDetails : NamespacedName := { Namespace := ot.NsxNamespace, Name := resName }
  match checkIfK8sResourceExists c h inst instanceDetails with
  | ((_, some err), h1) => (Res.ret (some err), h1)
  | ((true, none), h1) => (Res.ret none, h1)
  | ((false, none), h1) =>
    let k8sObj := identifyAndGetK8SObjToCreate ot r resName
    match createK8sObject c r h1 k8sObj with
    | (Res.panicked, h2) => (Res.panicked, h2)
    | (Res.ret (some err), h2) => (Res.ret (some err), h2)
    | (Res.ret none, h2) => (Res.ret none, h2)

/-! ## Remediation of node-agent pods in crash loop -/

/-- The function `strings.Contains`: whether `substr` occurs within `s`. -/
def stringsContains (s : String) (substr : String) : Bool :=
  decide (substr.data <:+: s.data)

/-- The text searched for in the previous log of the node-agent container. -/
def invalidResolvConfSignature : String :=
  "Failed to establish a new connection: " ++ "[Errno -2] Name or service not known"

/-- The function `isNodeAgentContainerInCLB`. -/
def isNodeAgentContainerInCLB (ot : OperatorTypes) (pod : Pod) : Bool :=
  pod.ContainerStatuses.any (fun containerStatus =>
    if containerStatus.Name = ot.NsxNodeAgentContainerName then
      match containerStatus.State.Waiting with
      | some waiting => decide (waiting.Reason = "CrashLoopBackOff")
      | none => false
    else
      false)

/-- The function variable `getContainerLogsInPod`: the pair it returns and the
trace.  The container asked for is the node-agent container, whatever
`containerName` is. -/
def getContainerLogsInPod (ot : OperatorTypes) (c : Cluster) (h : List Event) (pod : Pod)
    (_containerName : String) : (String × Option GoError) × List Event :=
  match c.inClusterConfig h with
  | some err => (("", some err), h)
  | none =>
    match c.newForConfig h with
    | some err => (("", some err), h)
    | none =>
      let logLinesRetrieved : Int := 50
      let podLogOptions : PodLogOptions :=
        { Container := ot.NsxNodeAgentContainerName, Previous := true,
          TailLines := some logLinesRetrieved }
      let h1 := h ++ [Event.GetLogs pod.Namespace pod.Name podLogOptions]
      match c.stream h pod.Namespace pod.Name podLogOptions with
      | Except.error err => (("", some err), h1)
      | Except.ok podLogs =>
        match podLogs.read with
        | Except.error err => (("", some err), h1)
        | Except.ok text => ((text, none), h1)

/-- The loop of `identifyPodsInCLBDueToInvalidResolvConf` over the remaining
items of the pod list, `podsInCLB` being the pods appended so far. -/
def identifyPodsLoop (ot : OperatorTypes) (c : Cluster) :
    List Event → List Pod → List Pod → (List Pod × Option GoError) × List Event
  | h, [], podsInCLB => ((podsInCLB, none), h)
  | h, pod :: items, podsInCLB =>
    if isNodeAgentContainerInCLB ot pod then
      match getContainerLogsInPod ot c h pod ot.NsxNodeAgentContainerName with
      | ((_, some err), h1) => (([], some err), h1)
      | ((nodeAgentLogs, none), h1) =>
        if stringsContains nodeAgentLogs invalidResolvConfSignature then
          identifyPodsLoop ot c h1 items (podsInCLB ++ [pod])
        else
          identifyPodsLoop ot c h1 items podsInCLB
    else
      identifyPodsLoop ot c h items podsInCLB

/-- The function `identifyPodsInCLBDueToInvalidResolvConf`. -/
def identifyPodsInCLBDueToInvalidResolvConf (ot : OperatorTypes) (c : Cluster)
    (h : List Event) : (List Pod × Option GoError) × List Event :=
  let nodeAgentLabelSelector := [("component", ot.NsxNodeAgentDsName)]
  let h1 := h ++ [Event.List nodeAgentLabelSelector]
  match c.list h nodeAgentLabelSelector with
  | Except.error err => (([], some err), h1)
  | Except.ok items => identifyPodsLoop ot c h1 items []

/-- The loop of `deletePods` over the remaining pods. -/
def deletePodsLoop (c : Cluster) : List Event → List Pod → Bool → Bool × List Event
  | h, [], allPodsDeleted => (allPodsDeleted, h)
  | h, pod :: pods, allPodsDeleted =>
    let policy := DeletionPropagation.Foreground
    let h1 := h ++ [Event.Delete pod 5 policy]
    match c.delete h pod 5 policy with
    | some _ => deletePodsLoop c h1 pods false
    | none => deletePodsLoop c h1 pods allPodsDeleted

/-- The function `deletePods`. -/
def deletePods (c : Cluster) (h : List Event) (pods : List Pod) : Bool × List Event :=
  deletePodsLoop c h pods true

/-- The method `recreateNodeAgentPodsIfInvalidResolvConf`. -/
def recreateNodeAgentPodsIfInvalidResolvConf (ot : OperatorTypes) (c : Cluster)
    (h : List Event) (_resName : String) : Option GoError × List Event :=
  match identifyPodsInCLBDueToInvalidResolvConf ot c h with
  | ((_, some err), h1) => (some err, h1)
  | ((podsInCLB, none), h1) =>
    if podsInCLB.length > 0 then
      match deletePods c h1 podsInCLB with
      | (false, h2) =>
        (some (GoError.new ("Error occured while trying to restart pods in " ++
          "CLB because of invalid resolv.conf")), h2)
      | (true, h2) => (none, h2)
    else
      (none, h1)

/-! ## The dispatcher -/

/-- The method `Reconcile`. -/
def Reconcile (ot : OperatorTypes) (c : Cluster) (r : ReconcilePod) (h : List Event)
    (request : Request) : Res (Result × Option GoError) × List Event :=
  if !isForNsxNcpResource r request then
    (Res.ret ({ Requeue := false, RequeueAfter := 0 }, none), h)
  else
    let h1 := h ++ [Event.SetFromPods]
    match recreateNsxNcpResourceIfDeleted ot c r h1 request.Name with
    | (Res.panicked, h2) => (Res.panicked, h2)
    | (Res.ret (some err), h2) => (Res.ret ({ Requeue := true, RequeueAfter := 0 }, some err), h2)
    | (Res.ret none, h2) =>
      if request.Name = ot.NsxNodeAgentDsName then
        match recreateNodeAgentPodsIfInvalidResolvConf ot c h2 request.Name with
        | (some err, h3) => (Res.ret ({ Requeue := true, RequeueAfter := 0 }, some err), h3)
        | (none, h3) => (Res.ret ({ Requeue := false, RequeueAfter := ResyncPeriod }, none), h3)
      else
        (Res.ret ({ Requeue := false, RequeueAfter := ResyncPeriod }, none), h2)

/-! ## Concrete values used in examples -/

/-- The values of the constants of `pkg/types` in a deployment of the
operator. -/
def exampleTypes : OperatorTypes :=
  { NsxNamespace := "nsx-system",
    NsxNcpDeploymentName := "nsx-ncp",
    NsxNodeAgentDsName := "nsx-node-agent",
    NsxNcpBootstrapDsName := "nsx-ncp-bootstrap",
    NsxNodeAgentContainerName := "nsx-node-agent" }

/-- A cluster where every call succeeds, nothing is found missing, no pod is
listed and logs are empty. -/
def quietCluster : Cluster :=
  { get := fun _ _ _ => none,
    setControllerReference := fun _ _ _ => none,
    controllerReferenceSet := fun _ _ o => o,
    applyObject := fun _ _ => none,
    list := fun _ _ => Except.ok [],
    inClusterConfig := fun _ => none,
    newForConfig := fun _ => none,
    stream := fun _ _ _ _ => Except.ok { read := Except.ok "" },
    delete := fun _ _ _ _ => none }

/-- The error `client.Get` returns for an object that does not exist. -/
def notFoundError : GoError := GoError.external true "not found"

/-- An error of the API server other than not-found. -/
def serverError : GoError := GoError.external false "internal error"

/-- A cluster where every managed resource is missing. -/
def missingCluster : Cluster :=
  { quietCluster with get := fun _ _ _ => some notFoundError }

/-- The umbrella network configuration object. -/
def exampleNetwork : Network := { name := "cluster" }

/-- A desired spec of the NCP deployment. -/
def exampleDeploymentSpec : Unstructured :=
  { GroupVersionKind := "apps/v1, Kind=Deployment", Namespace := "nsx-system",
    Name := "nsx-ncp", Body := "ncp" }

/-- A desired spec of the node-agent daemon set. -/
def exampleNodeAgentSpec : Unstructured :=
  { GroupVersionKind := "apps/v1, Kind=DaemonSet", Namespace := "nsx-system",
    Name := "nsx-node-agent", Body := "agent" }

/-- A desired spec of the bootstrap daemon set. -/
def exampleBootstrapSpec : Unstructured :=
  { GroupVersionKind := "apps/v1, Kind=DaemonSet", Namespace := "nsx-system",
    Name := "nsx-ncp-bootstrap", Body := "bootstrap" }

/-- Shared information with the network configuration and every spec set. -/
def readyInfo : SharedInfo :=
  { NetworkConfig := some exampleNetwork,
    NsxNodeAgentDsSpec := some exampleNodeAgentSpec,
    NsxNcpBootstrapDsSpec := some exampleBootstrapSpec,
    NsxNcpDeploymentSpec := some exampleDeploymentSpec }

/-- The reconciler built by `newReconciler` over the ready shared information. -/
def readyReconciler : ReconcilePod := newReconciler exampleTypes readyInfo

/-- A cluster where the existence read fails with a server error. -/
def failingReadCluster : Cluster :=
  { quietCluster with get := fun _ _ _ => some serverError }

/-- A cluster where every managed resource is missing and
`SetControllerReference` fails. -/
def rejectingCluster : Cluster :=
  { missingCluster with
    setControllerReference := fun _ _ _ => some (GoError.external false "cannot own") }

/-- Shared information with the network configuration set and no deployment
spec yet. -/
def speclessInfo : SharedInfo :=
  { readyInfo with NsxNcpDeploymentSpec := none }

/-- The reconciler over the shared information without a deployment spec. -/
def speclessReconciler : ReconcilePod := newReconciler exampleTypes speclessInfo

/-- The waiting state of a container in crash loop. -/
def crashLoopState : ContainerState :=
  { Waiting := some { Reason := "CrashLoopBackOff", Message := "back-off restarting" } }

/-- A node-agent pod in crash loop whose previous log shows the failed name
resolution. -/
def dnsPod : Pod :=
  { Namespace := "nsx-system", Name := "nsx-node-agent-dns",
    ContainerStatuses := [{ Name := "nsx-node-agent", State := crashLoopState }] }

/-- A node-agent pod in crash loop for another cause. -/
def otherCrashPod : Pod :=
  { Namespace := "nsx-system", Name := "nsx-node-agent-other",
    ContainerStatuses := [{ Name := "nsx-node-agent", State := crashLoopState }] }

/-- A node-agent pod whose container runs. -/
def runningPod : Pod :=
  { Namespace := "nsx-system", Name := "nsx-node-agent-ok",
    ContainerStatuses := [{ Name := "nsx-node-agent", State := { Waiting := none } }] }

/-- A previous log with the failed name resolution. -/
def dnsLog : String :=
  "NewConnectionError: Failed to establish a new connection: " ++
    "[Errno -2] Name or service not known"

/-- The previous log of a pod in the example cluster, by pod name. -/
def exampleLogOf (name : String) : String :=
  if name = "nsx-node-agent-dns" then dnsLog else "connection refused"

/-- A cluster where the node-agent daemon set exists and three node-agent pods
are listed. -/
def crashLoopCluster : Cluster :=
  { quietCluster with
    list := fun _ _ => Except.ok [runningPod, dnsPod, otherCrashPod],
    stream := fun _ _ name _ => Except.ok { read := Except.ok (exampleLogOf name) } }

/-- The crash-loop cluster where every delete request fails. -/
def undeletableCluster : Cluster :=
  { crashLoopCluster with delete := fun _ _ _ _ => some serverError }

/-- The crash-loop cluster where the log of the second pod in crash loop cannot
be retrieved. -/
def logFailureCluster : Cluster :=
  { crashLoopCluster with
    stream := fun _ _ name _ =>
      if name = "nsx-node-agent-dns" then Except.ok { read := Except.ok dnsLog }
      else Except.error serverError }

/-! ## Classification of events -/

/-- Whether an event is a call of `ApplyObject`. -/
def Event.isApplyObject : Event → Bool
  | Event.ApplyObject _ => true
  | _ => false

/-- Whether an event is a call of `SetControllerReference`. -/
def Event.isSetControllerReference : Event → Bool
  | Event.SetControllerReference _ _ => true
  | _ => false

/-- Whether an event is a call of `SetDegraded`. -/
def Event.isSetDegraded : Event → Bool
  | Event.SetDegraded _ _ _ => true
  | _ => false

/-- Whether an event is a call of `client.Delete`. -/
def Event.isDelete : Event → Bool
  | Event.Delete _ _ _ => true
  | _ => false

/-- Whether an event is a call of `client.List`. -/
def Event.isList : Event → Bool
  | Event.List _ => true
  | _ => false

/-! ## Names for the requests and phases of a reconciliation -/

/-- The delete request issued by `deletePods` for a pod: grace period of 5
seconds, foreground propagation. -/
def deleteEvent (pod : Pod) : Event :=
  Event.Delete pod 5 DeletionPropagation.Foreground

/-- The list request issued by `identifyPodsInCLBDueToInvalidResolvConf`. -/
def listEvent (ot : OperatorTypes) : Event :=
  Event.List [("component", ot.NsxNodeAgentDsName)]

/-- The drift phase of `Reconcile`: the call of
`recreateNsxNcpResourceIfDeleted` after the status refresh. -/
def driftPhase (ot : OperatorTypes) (c : Cluster) (r : ReconcilePod) (h : List Event)
    (request : Request) : Res (Option GoError) × List Event :=
  recreateNsxNcpResourceIfDeleted ot c r (h ++ [Event.SetFromPods]) request.Name

/-- The remediation phase of `Reconcile`: the call of
`recreateNodeAgentPodsIfInvalidResolvConf` after the drift phase. -/
def remediationPhase (ot : OperatorTypes) (c : Cluster) (r : ReconcilePod) (h : List Event)
    (request : Request) : Option GoError × List Event :=
  recreateNodeAgentPodsIfInvalidResolvConf ot c (driftPhase ot c r h request).2 request.Name

/-! ## Drift detection: what is issued and what is returned -/

/-- The key of the existence read issued for a resource name. -/
def instanceDetailsOf (ot : OperatorTypes) (resName : String) : NamespacedName :=
  { Namespace := ot.NsxNamespace, Name := resName }

/-- The existence read issued by `recreateNsxNcpResourceIfDeleted`. -/
def getEvent (ot : OperatorTypes) (resName : String) : Event :=
  Event.Get (identifyAndGetInstance ot resName) (instanceDetailsOf ot resName)

/-- What the existence read of `recreateNsxNcpResourceIfDeleted` answers. -/
def getAnswer (ot : OperatorTypes) (c : Cluster) (h : List Event) (resName : String) :
    Option GoError :=
  c.get h (identifyAndGetInstance ot resName) (instanceDetailsOf ot resName)

/-- C2: when the existence read does not report not-found,
`recreateNsxNcpResourceIfDeleted` issues the read and nothing else (no
`SetControllerReference`, no `ApplyObject`); it returns nil when the read
succeeded and the error of the read when the read failed. -/
theorem recreate_no_write_unless_missing (ot : OperatorTypes) (c : Cluster) (r : ReconcilePod)
    (h : List Event) (resName : String)
    (hread : ∀ err, getAnswer ot c h resName = some err → IsNotFound err = false) :
    (recreateNsxNcpResourceIfDeleted ot c r h resName).2 = h ++ [getEvent ot resName] ∧
    (getAnswer ot c h resName = none →
      (recreateNsxNcpResourceIfDeleted ot c r h resName).1 = Res.ret none) ∧
    (∀ err, getAnswer ot c h resName = some err →
      (recreateNsxNcpResourceIfDeleted ot c r h resName).1 = Res.ret (some err)) := by
  unfold getAnswer at hread ⊢
  unfold recreateNsxNcpResourceIfDeleted checkIfK8sResourceExists getEvent instanceDetailsOf
  cases hg : c.get h (identifyAndGetInstance ot resName)
      { Namespace := ot.NsxNamespace, Name := resName } with
  | none => simp [hg]
  | some err =>
    have hnf : IsNotFound err = false := hread err (by simpa [instanceDetailsOf] using hg)
    simp [hg, hnf]

/-- Witness of C2: the NCP deployment exists in the quiet cluster. -/
theorem recreate_no_write_unless_missing_witness :
    (recreateNsxNcpResourceIfDeleted exampleTypes quietCluster readyReconciler [] "nsx-ncp").2
        = [] ++ [getEvent exampleTypes "nsx-ncp"] ∧
    (getAnswer exampleTypes quietCluster [] "nsx-ncp" = none →
      (recreateNsxNcpResourceIfDeleted exampleTypes quietCluster readyReconciler [] "nsx-ncp").1
        = Res.ret none) ∧
    (∀ err, getAnswer exampleTypes quietCluster [] "nsx-ncp" = some err →
      (recreateNsxNcpResourceIfDeleted exampleTypes quietCluster readyReconciler [] "nsx-ncp").1
        = Res.ret (some err)) :=
  recreate_no_write_unless_missing exampleTypes quietCluster readyReconciler [] "nsx-ncp"
    (by intro err herr; simp [getAnswer, quietCluster] at herr)

/-- C3: when the existence read reports not-found and `NetworkConfig` is nil,
`recreateNsxNcpResourceIfDeleted` returns the not-ready error and issues the
read and nothing else: no `SetControllerReference`, no `ApplyObject`, no
`SetDegraded`. -/
theorem recreate_config_not_ready (ot : OperatorTypes) (c : Cluster) (r : ReconcilePod)
    (h : List Event) (resName : String) (err : GoError)
    (hget : getAnswer ot c h resName = some err) (hnf : IsNotFound err = true)
    (hnc : r.sharedInfo.NetworkConfig = none) :
    recreateNsxNcpResourceIfDeleted ot c r h resName =
      (Res.ret (some (GoError.new
        "NetworkConfig empty. Waiting for config_map controller to set it")),
       h ++ [getEvent ot resName]) := by
  unfold getAnswer instanceDetailsOf at hget
  unfold recreateNsxNcpResourceIfDeleted checkIfK8sResourceExists getEvent instanceDetailsOf
  simp [hget, hnf, createK8sObject, hnc]

/-- Witness of C3: the NCP deployment is missing and no network configuration
is set. -/
theorem recreate_config_not_ready_witness :
    recreateNsxNcpResourceIfDeleted exampleTypes missingCluster
        { readyReconciler with sharedInfo := { readyInfo with NetworkConfig := none } }
        [] "nsx-ncp" =
      (Res.ret (some (GoError.new
        "NetworkConfig empty. Waiting for config_map controller to set it")),
       [] ++ [getEvent exampleTypes "nsx-ncp"]) :=
  recreate_config_not_ready exampleTypes missingCluster
    { readyReconciler with sharedInfo := { readyInfo with NetworkConfig := none } }
    [] "nsx-ncp" notFoundError rfl rfl rfl

/-- C1: when the existence read reports not-found, `NetworkConfig` is set, the
cached spec selected by the name (the bootstrap spec for the bootstrap daemon
set, the node-agent spec for the node-agent daemon set, the deployment spec
otherwise) is set and `SetControllerReference` succeeds, then after the read the
reconciler issues `SetControllerReference` with `NetworkConfig` as owner on a
copy of that spec, then `ApplyObject` on the object so owned, exactly once;
only a `SetDegraded` may follow, when `ApplyObject` failed; and the reconciler
returns nil exactly when `ApplyObject` returned nil. -/
theorem recreate_on_drift (ot : OperatorTypes) (c : Cluster) (r : ReconcilePod)
    (h : List Event) (resName : String) (err : GoError) (networkConfig : Network)
    (spec : Unstructured)
    (hget : getAnswer ot c h resName = some err) (hnf : IsNotFound err = true)
    (hnc : r.sharedInfo.NetworkConfig = some networkConfig)
    (hspec :
      (resName = ot.NsxNcpBootstrapDsName ∧ r.sharedInfo.NsxNcpBootstrapDsSpec = some spec) ∨
      (resName ≠ ot.NsxNcpBootstrapDsName ∧ resName = ot.NsxNodeAgentDsName ∧
        r.sharedInfo.NsxNodeAgentDsSpec = some spec) ∨
      (resName ≠ ot.NsxNcpBootstrapDsName ∧ resName ≠ ot.NsxNodeAgentDsName ∧
        r.sharedInfo.NsxNcpDeploymentSpec = some spec))
    (hown : c.setControllerReference (h ++ [getEvent ot resName]) networkConfig (some spec)
      = none) :
    (recreateNsxNcpResourceIfDeleted ot c r h resName).2 =
      h ++ [getEvent ot resName,
            Event.SetControllerReference networkConfig (some spec),
            Event.ApplyObject
              (some (c.controllerReferenceSet (h ++ [getEvent ot resName]) networkConfig spec))]
        ++ (match c.applyObject
                (h ++ [getEvent ot resName,
                       Event.SetControllerReference networkConfig (some spec)])
                (some (c.controllerReferenceSet (h ++ [getEvent ot resName])
                  networkConfig spec)) with
            | none => []
            | some applyErr =>
              [Event.SetDegraded StatusLevel.OperatorConfig "ApplyOperatorConfig"
                ("Failed to apply operator configuration: " ++ applyErr.Error)]) ∧
    List.countP Event.isApplyObject
      ((recreateNsxNcpResourceIfDeleted ot c r h resName).2.drop h.length) = 1 ∧
    ((recreateNsxNcpResourceIfDeleted ot c r h resName).1 = Res.ret none ↔
      c.applyObject
        (h ++ [getEvent ot resName, Event.SetControllerReference networkConfig (some spec)])
        (some (c.controllerReferenceSet (h ++ [getEvent ot resName]) networkConfig spec))
        = none) := by
  have hobj : identifyAndGetK8SObjToCreate ot r resName = some spec := by
    unfold identifyAndGetK8SObjToCreate Unstructured.DeepCopy
    rcases hspec with ⟨h1, h2⟩ | ⟨h1, h2, h3⟩ | ⟨h1, h2, h3⟩
    · simp [← h1, h2]
    · simp [h1, ← h2, h3]
    · simp [h1, h2, h3]
  unfold getAnswer instanceDetailsOf at hget
  unfold getEvent instanceDetailsOf at hown ⊢
  unfold recreateNsxNcpResourceIfDeleted checkIfK8sResourceExists
  simp only [hget, hnf, hobj, createK8sObject, hnc, if_true, Option.map_some', hown,
    List.append_assoc, List.singleton_append]
  cases ha : c.applyObject
      (h ++ [Event.Get (identifyAndGetInstance ot resName)
              { Namespace := ot.NsxNamespace, Name := resName },
             Event.SetControllerReference networkConfig (some spec)])
      (some (c.controllerReferenceSet
        (h ++ [Event.Get (identifyAndGetInstance ot resName)
                { Namespace := ot.NsxNamespace, Name := resName }]) networkConfig spec)) with
  | none =>
    simp [ha, describeObj, List.append_assoc, Event.isApplyObject, List.countP_cons]
  | some applyErr =>
    simp [ha, describeObj, List.append_assoc, Event.isApplyObject, List.countP_cons]

/-- Witness of C1: the NCP deployment is missing, the network configuration and
the deployment spec are set, and every call succeeds. -/
theorem recreate_on_drift_witness :
    (recreateNsxNcpResourceIfDeleted exampleTypes missingCluster readyReconciler [] "nsx-ncp").2
      = [getEvent exampleTypes "nsx-ncp",
         Event.SetControllerReference exampleNetwork (some exampleDeploymentSpec),
         Event.ApplyObject (some exampleDeploymentSpec)] ∧
    (recreateNsxNcpResourceIfDeleted exampleTypes missingCluster readyReconciler [] "nsx-ncp").1
      = Res.ret none := by
  have key := recreate_on_drift exampleTypes missingCluster readyReconciler [] "nsx-ncp"
    notFoundError exampleNetwork exampleDeploymentSpec rfl rfl rfl
    (Or.inr (Or.inr ⟨by decide, by decide, rfl⟩)) rfl
  refine ⟨?_, key.2.2.2 rfl⟩
  have k1 := key.1
  simpa [missingCluster, quietCluster] using k1

/-- Counterexample to C9: a failed existence read (an error other than
not-found) is returned by `recreateNsxNcpResourceIfDeleted` and no `SetDegraded`
is issued. -/
theorem recreate_lookup_error_not_degraded :
    IsNotFound serverError = false ∧
    getAnswer exampleTypes failingReadCluster [] "nsx-ncp" = some serverError ∧
    (recreateNsxNcpResourceIfDeleted exampleTypes failingReadCluster readyReconciler []
      "nsx-ncp").1 = Res.ret (some serverError) ∧
    List.countP Event.isSetDegraded
      (recreateNsxNcpResourceIfDeleted exampleTypes failingReadCluster readyReconciler []
        "nsx-ncp").2 = 0 := by
  refine ⟨rfl, rfl, rfl, ?_⟩
  decide

/-- C9, amended: every error returned by `recreateNsxNcpResourceIfDeleted` is
one of four.  A lookup error or the not-ready error is returned with the read as
the only call, so without `SetDegraded`.  An ownership error
(`SetControllerReference` failed) or an apply error (`ApplyObject` failed) is
returned after `SetDegraded` was issued as the last call. -/
theorem recreate_error_degraded (ot : OperatorTypes) (c : Cluster) (r : ReconcilePod)
    (h : List Event) (resName : String) (e : GoError)
    (hres : (recreateNsxNcpResourceIfDeleted ot c r h resName).1 = Res.ret (some e)) :
    (getAnswer ot c h resName = some e ∧ IsNotFound e = false ∧
      (recreateNsxNcpResourceIfDeleted ot c r h resName).2 = h ++ [getEvent ot resName]) ∨
    (r.sharedInfo.NetworkConfig = none ∧
      e = GoError.new "NetworkConfig empty. Waiting for config_map controller to set it" ∧
      (recreateNsxNcpResourceIfDeleted ot c r h resName).2 = h ++ [getEvent ot resName]) ∨
    (∃ networkConfig spec cause,
      r.sharedInfo.NetworkConfig = some networkConfig ∧
      identifyAndGetK8SObjToCreate ot r resName = some spec ∧
      c.setControllerReference (h ++ [getEvent ot resName]) networkConfig (some spec)
        = some cause ∧
      (∃ msg, e = GoError.wrapf cause msg) ∧
      (recreateNsxNcpResourceIfDeleted ot c r h resName).2 =
        h ++ [getEvent ot resName,
              Event.SetControllerReference networkConfig (some spec),
              Event.SetDegraded StatusLevel.OperatorConfig "ApplyObjectsError"
                ("Failed to apply objects: " ++ e.Error)]) ∨
    (∃ networkConfig spec,
      r.sharedInfo.NetworkConfig = some networkConfig ∧
      identifyAndGetK8SObjToCreate ot r resName = some spec ∧
      c.setControllerReference (h ++ [getEvent ot resName]) networkConfig (some spec)
        = none ∧
      c.applyObject
        (h ++ [getEvent ot resName, Event.SetControllerReference networkConfig (some spec)])
        (some (c.controllerReferenceSet (h ++ [getEvent ot resName]) networkConfig spec))
        = some e ∧
      (recreateNsxNcpResourceIfDeleted ot c r h resName).2 =
        h ++ [getEvent ot resName,
              Event.SetControllerReference networkConfig (some spec),
              Event.ApplyObject
                (some (c.controllerReferenceSet (h ++ [getEvent ot resName])
                  networkConfig spec)),
              Event.SetDegraded StatusLevel.OperatorConfig "ApplyOperatorConfig"
                ("Failed to apply operator configuration: " ++ e.Error)]) := by
  unfold getAnswer getEvent instanceDetailsOf
  unfold recreateNsxNcpResourceIfDeleted checkIfK8sResourceExists at hres ⊢
  cases hg : c.get h (identifyAndGetInstance ot resName)
      { Namespace := ot.NsxNamespace, Name := resName } with
  | none => simp [hg] at hres
  | some err =>
    cases hnf : IsNotFound err with
    | false =>
      simp only [hg, hnf] at hres ⊢
      simp at hres
      subst hres
      left
      simp [hnf]
    | true =>
      simp only [hg, hnf, if_true] at hres ⊢
      cases hnc : r.sharedInfo.NetworkConfig with
      | none =>
        simp only [createK8sObject, hnc] at hres ⊢
        simp at hres
        subst hres
        right; left
        simp
      | some networkConfig =>
        cases hobj : identifyAndGetK8SObjToCreate ot r resName with
        | none =>
          simp only [createK8sObject, hnc, hobj, Option.map_none', describeObj] at hres
          cases hs : c.setControllerReference
              (h ++ [Event.Get (identifyAndGetInstance ot resName)
                { Namespace := ot.NsxNamespace, Name := resName }]) networkConfig none with
          | some cause => simp [hs] at hres
          | none =>
            simp only [hs] at hres
            simp only [List.append_assoc, List.singleton_append] at hres
            cases ha : c.applyObject
                (h ++ [Event.Get (identifyAndGetInstance ot resName)
                    { Namespace := ot.NsxNamespace, Name := resName },
                  Event.SetControllerReference networkConfig none]) none with
            | some applyErr => simp [ha] at hres
            | none => simp [ha] at hres
        | some spec =>
          simp only [createK8sObject, hnc, hobj, Option.map_some', describeObj] at hres ⊢
          cases hs : c.setControllerReference
              (h ++ [Event.Get (identifyAndGetInstance ot resName)
                { Namespace := ot.NsxNamespace, Name := resName }])
              networkConfig (some spec) with
          | some cause =>
            simp only [hs] at hres ⊢
            simp at hres
            subst hres
            right; right; left
            simp [hs]
          | none =>
            simp only [hs] at hres ⊢
            simp only [List.append_assoc, List.singleton_append] at hres ⊢
            cases ha : c.applyObject
                (h ++ [Event.Get (identifyAndGetInstance ot resName)
                    { Namespace := ot.NsxNamespace, Name := resName },
                  Event.SetControllerReference networkConfig (some spec)])
                (some (c.controllerReferenceSet
                  (h ++ [Event.Get (identifyAndGetInstance ot resName)
                    { Namespace := ot.NsxNamespace, Name := resName }])
                  networkConfig spec)) with
            | none => simp [ha] at hres
            | some applyErr =>
              simp only [ha] at hres ⊢
              simp at hres
              subst hres
              right; right; right
              refine ⟨networkConfig, spec, rfl, rfl, hs, ?_, ?_⟩
              · simpa using ha
              · simp

/-- Witness of C9, amended: the NCP deployment is missing, its spec and the
network configuration are set, and `SetControllerReference` fails; the wrapped
error is returned after one `SetDegraded`. -/
theorem recreate_error_degraded_witness :
    (recreateNsxNcpResourceIfDeleted exampleTypes rejectingCluster readyReconciler []
      "nsx-ncp").1 =
      Res.ret (some (GoError.wrapf (GoError.external false "cannot own")
        "could not set reference for (apps/v1, Kind=Deployment) nsx-system/nsx-ncp")) ∧
    (recreateNsxNcpResourceIfDeleted exampleTypes rejectingCluster readyReconciler []
      "nsx-ncp").2 =
      [getEvent exampleTypes "nsx-ncp",
       Event.SetControllerReference exampleNetwork (some exampleDeploymentSpec),
       Event.SetDegraded StatusLevel.OperatorConfig "ApplyObjectsError"
        ("Failed to apply objects: could not set reference for " ++
          "(apps/v1, Kind=Deployment) nsx-system/nsx-ncp: cannot own")] := by
  have hres : (recreateNsxNcpResourceIfDeleted exampleTypes rejectingCluster readyReconciler []
      "nsx-ncp").1 =
      Res.ret (some (GoError.wrapf (GoError.external false "cannot own")
        "could not set reference for (apps/v1, Kind=Deployment) nsx-system/nsx-ncp")) := by
    decide
  refine ⟨hres, ?_⟩
  rcases recreate_error_degraded exampleTypes rejectingCluster readyReconciler [] "nsx-ncp" _ hres
    with ⟨hg, _⟩ | ⟨hn, _⟩ | ⟨nc, spec, cause, hn, ho, _, _, ht⟩ | ⟨nc, spec, _, _, hs, _⟩
  · exact absurd hg (by decide)
  · exact absurd hn (by decide)
  · have hnc : nc = exampleNetwork := by
      have : some exampleNetwork = some nc := hn
      exact (Option.some.inj this).symm
    have hsp : spec = exampleDeploymentSpec := by
      have : some exampleDeploymentSpec = some spec := by
        rw [← ho]; decide
      exact (Option.some.inj this).symm
    subst hnc hsp
    rw [ht]
    decide
  · exact absurd hs (by simp [rejectingCluster])

/-- C10, the code at the failing input: the NCP deployment is missing, the
network configuration is set and the deployment spec is nil.  The reconciler
does not stop after finding the spec unset: it issues `SetControllerReference`
and `ApplyObject` on the nil object and returns nil; and when
`SetControllerReference` returns an error, building the error message calls a
method of the nil object, which panics. -/
theorem recreate_absent_spec_not_awaited :
    identifyAndGetK8SObjToCreate exampleTypes speclessReconciler "nsx-ncp" = none ∧
    recreateNsxNcpResourceIfDeleted exampleTypes missingCluster speclessReconciler []
        "nsx-ncp" =
      (Res.ret none,
       [getEvent exampleTypes "nsx-ncp",
        Event.SetControllerReference exampleNetwork none,
        Event.ApplyObject none]) ∧
    recreateNsxNcpResourceIfDeleted exampleTypes rejectingCluster speclessReconciler []
        "nsx-ncp" =
      (Res.panicked,
       [getEvent exampleTypes "nsx-ncp",
        Event.SetControllerReference exampleNetwork none]) := by
  refine ⟨by decide, by decide, by decide⟩

/-! ## Traces of the loops and phases -/

/-- The calls issued by `createK8sObject` extend the trace and contain no list
request. -/
theorem createK8sObject_trace (c : Cluster) (r : ReconcilePod) (h : List Event)
    (obj : Option Unstructured) :
    ∃ evs, (createK8sObject c r h obj).2 = h ++ evs ∧ ∀ e ∈ evs, e.isList = false := by
  unfold createK8sObject
  cases hnc : r.sharedInfo.NetworkConfig with
  | none => exact ⟨[], by simp, by simp⟩
  | some networkConfig =>
    simp only []
    cases hs : c.setControllerReference h networkConfig obj with
    | some cause =>
      cases obj with
      | none =>
        simp only [describeObj, Option.map_none', List.append_assoc, List.singleton_append]
        exact ⟨_, rfl, by simp [Event.isList]⟩
      | some o =>
        simp only [describeObj, Option.map_some', List.append_assoc, List.singleton_append]
        exact ⟨_, rfl, by simp [Event.isList]⟩
    | none =>
      simp only []
      cases ha : c.applyObject (h ++ [Event.SetControllerReference networkConfig obj])
          (Option.map (c.controllerReferenceSet h networkConfig) obj) with
      | none =>
        simp only [List.append_assoc, List.singleton_append]
        exact ⟨_, rfl, by simp [Event.isList]⟩
      | some applyErr =>
        cases obj with
        | none =>
          simp only [describeObj, Option.map_none', List.append_assoc, List.singleton_append]
          exact ⟨_, rfl, by simp [Event.isList]⟩
        | some o =>
          simp only [describeObj, Option.map_some', List.append_assoc, List.singleton_append]
          exact ⟨_, rfl, by simp [Event.isList]⟩

/-- The calls issued by `recreateNsxNcpResourceIfDeleted` start with the
existence read and contain no list request. -/
theorem recreate_trace (ot : OperatorTypes) (c : Cluster) (r : ReconcilePod) (h : List Event)
    (resName : String) :
    ∃ evs, (recreateNsxNcpResourceIfDeleted ot c r h resName).2 =
        h ++ getEvent ot resName :: evs ∧ ∀ e ∈ evs, e.isList = false := by
  unfold recreateNsxNcpResourceIfDeleted checkIfK8sResourceExists getEvent instanceDetailsOf
  cases hg : c.get h (identifyAndGetInstance ot resName)
      { Namespace := ot.NsxNamespace, Name := resName } with
  | none => exact ⟨[], by simp [hg], by simp⟩
  | some err =>
    cases hnf : IsNotFound err with
    | false => exact ⟨[], by simp [hg, hnf], by simp⟩
    | true =>
      obtain ⟨evs, hevs, hno⟩ := createK8sObject_trace c r
        (h ++ [Event.Get (identifyAndGetInstance ot resName)
          { Namespace := ot.NsxNamespace, Name := resName }])
        (identifyAndGetK8SObjToCreate ot r resName)
      refine ⟨evs, ?_, hno⟩
      simp only [hg, hnf, if_true]
      have hsame : ∀ x : Res (Option GoError) × List Event,
          (match x with
            | (Res.panicked, h2) => (Res.panicked, h2)
            | (Res.ret (some err), h2) => (Res.ret (some err), h2)
            | (Res.ret none, h2) => (Res.ret none, h2)) = x := by
        intro x
        rcases x with ⟨res, t⟩
        cases res with
        | panicked => rfl
        | ret a => cases a <;> rfl
      rw [hsame, hevs]
      simp

/-- The calls issued by `getContainerLogsInPod`: none, or one log request. -/
theorem getContainerLogsInPod_trace (ot : OperatorTypes) (c : Cluster) (h : List Event)
    (pod : Pod) (containerName : String) :
    ∃ evs, (getContainerLogsInPod ot c h pod containerName).2 = h ++ evs ∧
      ∀ e ∈ evs, e.isDelete = false := by
  unfold getContainerLogsInPod
  cases c.inClusterConfig h with
  | some err => exact ⟨[], by simp, by simp⟩
  | none =>
    cases c.newForConfig h with
    | some err => exact ⟨[], by simp, by simp⟩
    | none =>
      simp only []
      cases c.stream h pod.Namespace pod.Name
          { Container := ot.NsxNodeAgentContainerName, Previous := true, TailLines := some 50 } with
      | error err => exact ⟨_, rfl, by simp [Event.isDelete]⟩
      | ok podLogs =>
        simp only []
        cases podLogs.read with
        | error err => exact ⟨_, rfl, by simp [Event.isDelete]⟩
        | ok text => exact ⟨_, rfl, by simp [Event.isDelete]⟩

/-- The calls issued by the loop of `identifyPodsInCLBDueToInvalidResolvConf`
extend the trace and contain no delete request. -/
theorem identifyPodsLoop_trace (ot : OperatorTypes) (c : Cluster) (items : List Pod) :
    ∀ (h : List Event) (podsInCLB : List Pod),
      ∃ evs, (identifyPodsLoop ot c h items podsInCLB).2 = h ++ evs ∧
        ∀ e ∈ evs, e.isDelete = false := by
  induction items with
  | nil => intro h podsInCLB; exact ⟨[], by simp [identifyPodsLoop], by simp⟩
  | cons pod items ih =>
    intro h podsInCLB
    unfold identifyPodsLoop
    cases hclb : isNodeAgentContainerInCLB ot pod with
    | false => simpa using ih h podsInCLB
    | true =>
      simp only [if_true]
      obtain ⟨evs1, h1, hno1⟩ :=
        getContainerLogsInPod_trace ot c h pod ot.NsxNodeAgentContainerName
      rcases hl : getContainerLogsInPod ot c h pod ot.NsxNodeAgentContainerName
        with ⟨⟨nodeAgentLogs, err⟩, t⟩
      rw [hl] at h1
      simp only at h1
      subst h1
      cases err with
      | some err => exact ⟨evs1, rfl, hno1⟩
      | none =>
        simp only []
        have step : ∀ acc, ∃ evs, (identifyPodsLoop ot c (h ++ evs1) items acc).2 = h ++ evs ∧
            ∀ e ∈ evs, e.isDelete = false := by
          intro acc
          obtain ⟨evs2, h2, hno2⟩ := ih (h ++ evs1) acc
          refine ⟨evs1 ++ evs2, by rw [h2, List.append_assoc], ?_⟩
          intro e he
          rcases List.mem_append.mp he with he | he
          · exact hno1 e he
          · exact hno2 e he
        split
        · exact step _
        · exact step _

/-- The loop of `deletePods` issues one delete request per pod, in order, and
returns true exactly when it started from true and every request succeeded. -/
theorem deletePodsLoop_spec (c : Cluster) (pods : List Pod) :
    ∀ (h : List Event) (allPodsDeleted : Bool),
      (deletePodsLoop c h pods allPodsDeleted).2 = h ++ pods.map deleteEvent ∧
      ((deletePodsLoop c h pods allPodsDeleted).1 = true ↔
        allPodsDeleted = true ∧
        ∀ (i : Nat) (hi : i < pods.length),
          c.delete (h ++ (pods.take i).map deleteEvent) (pods.get ⟨i, hi⟩) 5
            DeletionPropagation.Foreground = none) := by
  induction pods with
  | nil => intro h b; simp [deletePodsLoop]
  | cons pod pods ih =>
    intro h b
    unfold deletePodsLoop
    have hsplit : ∀ P : (i : Nat) → i < (pod :: pods).length → Prop,
        (∀ i hi, P i hi) ↔
          P 0 (Nat.succ_pos _) ∧ ∀ i (hi : i < pods.length), P (i + 1) (Nat.succ_lt_succ hi) := by
      intro P
      constructor
      · intro hall
        exact ⟨hall 0 _, fun i hi => hall (i + 1) _⟩
      · rintro ⟨h0, hs⟩ i hi
        cases i with
        | zero => exact h0
        | succ i => exact hs i (Nat.lt_of_succ_lt_succ hi)
    rw [hsplit]
    simp only [List.take_zero, List.map_nil, List.append_nil, List.get_eq_getElem,
      List.getElem_cons_zero, List.take_succ_cons, List.map_cons, List.getElem_cons_succ]
    cases hd : c.delete h pod 5 DeletionPropagation.Foreground with
    | some err =>
      obtain ⟨ht, hb⟩ := ih (h ++ [Event.Delete pod 5 DeletionPropagation.Foreground]) false
      refine ⟨by simpa [deleteEvent] using ht, ?_⟩
      simp only [hb]
      simp
    | none =>
      obtain ⟨ht, hb⟩ := ih (h ++ [Event.Delete pod 5 DeletionPropagation.Foreground]) b
      refine ⟨by simpa [deleteEvent] using ht, ?_⟩
      simp only [hb]
      simp [deleteEvent, List.append_assoc]

/-- The calls issued by `identifyPodsInCLBDueToInvalidResolvConf` start with
the list request and contain no delete request. -/
theorem identifyPods_trace (ot : OperatorTypes) (c : Cluster) (h : List Event) :
    ∃ evs, (identifyPodsInCLBDueToInvalidResolvConf ot c h).2 = h ++ listEvent ot :: evs ∧
      ∀ e ∈ evs, e.isDelete = false := by
  unfold identifyPodsInCLBDueToInvalidResolvConf listEvent
  cases hl : c.list h [("component", ot.NsxNodeAgentDsName)] with
  | error err => exact ⟨[], by simp only [hl], by simp⟩
  | ok items =>
    obtain ⟨evs, ht, hno⟩ := identifyPodsLoop_trace ot c items
      (h ++ [Event.List [("component", ot.NsxNodeAgentDsName)]]) []
    exact ⟨evs, by simp only [hl, ht, List.append_assoc, List.singleton_append], hno⟩

/-- What `recreateNodeAgentPodsIfInvalidResolvConf` does once the pods to
restart are identified: it deletes them all and fails when a delete failed. -/
theorem recreateNodeAgentPods_of_identified (ot : OperatorTypes) (c : Cluster)
    (h : List Event) (resName : String) (pods : List Pod) (h1 : List Event)
    (hid : identifyPodsInCLBDueToInvalidResolvConf ot c h = ((pods, none), h1)) :
    (recreateNodeAgentPodsIfInvalidResolvConf ot c h resName).2 = h1 ++ pods.map deleteEvent ∧
    ((recreateNodeAgentPodsIfInvalidResolvConf ot c h resName).1 = none ↔
      (deletePods c h1 pods).1 = true) := by
  unfold recreateNodeAgentPodsIfInvalidResolvConf
  rw [hid]
  simp only []
  cases pods with
  | nil => simp [deletePods, deletePodsLoop]
  | cons pod pods =>
    have hlen : (pod :: pods).length > 0 := Nat.succ_pos _
    simp only [hlen, if_true]
    have ht := (deletePodsLoop_spec c (pod :: pods) h1 true).1
    rcases hd : deletePods c h1 (pod :: pods) with ⟨b, t⟩
    have ht2 : t = h1 ++ (pod :: pods).map deleteEvent := by
      have : (deletePods c h1 (pod :: pods)).2 = t := by rw [hd]
      rw [← this]; exact ht
    cases b <;> simp [ht2]

/-- The calls issued by `recreateNodeAgentPodsIfInvalidResolvConf` start with
the list request. -/
theorem recreateNodeAgentPods_trace (ot : OperatorTypes) (c : Cluster) (h : List Event)
    (resName : String) :
    ∃ evs, (recreateNodeAgentPodsIfInvalidResolvConf ot c h resName).2 =
      h ++ listEvent ot :: evs := by
  obtain ⟨evs, ht, _⟩ := identifyPods_trace ot c h
  rcases hid : identifyPodsInCLBDueToInvalidResolvConf ot c h with ⟨⟨pods, err⟩, h1⟩
  rw [hid] at ht
  simp only at ht
  cases err with
  | some err =>
    refine ⟨evs, ?_⟩
    unfold recreateNodeAgentPodsIfInvalidResolvConf
    rw [hid]
    exact ht
  | none =>
    refine ⟨evs ++ pods.map deleteEvent, ?_⟩
    rw [(recreateNodeAgentPods_of_identified ot c h resName pods h1 hid).1, ht]
    simp

/-! ## Deletion pass -/

/-- C6: `deletePods` issues exactly one delete request per pod, in list order,
each with a grace period of 5 seconds and foreground propagation, whatever the
outcomes, and returns true exactly when every request succeeded.  Once the pods
to restart are identified, `recreateNodeAgentPodsIfInvalidResolvConf` issues
those requests and nothing else, returns an error exactly when the list is not
empty and a request failed, and issues no request when the list is empty. -/
theorem deletion_pass_exhaustive (ot : OperatorTypes) (c : Cluster) (h : List Event)
    (resName : String) (pods : List Pod) (h1 : List Event) :
    (deletePods c h1 pods).2 =
      h1 ++ pods.map (fun pod => Event.Delete pod 5 DeletionPropagation.Foreground) ∧
    ((deletePods c h1 pods).1 = true ↔
      ∀ (i : Nat) (hi : i < pods.length),
        c.delete (h1 ++ (pods.take i).map deleteEvent) (pods.get ⟨i, hi⟩) 5
          DeletionPropagation.Foreground = none) ∧
    (identifyPodsInCLBDueToInvalidResolvConf ot c h = ((pods, none), h1) →
      (recreateNodeAgentPodsIfInvalidResolvConf ot c h resName).2 =
        h1 ++ pods.map (fun pod => Event.Delete pod 5 DeletionPropagation.Foreground) ∧
      ((∃ err, (recreateNodeAgentPodsIfInvalidResolvConf ot c h resName).1 = some err) ↔
        pods ≠ [] ∧
        ∃ (i : Nat) (hi : i < pods.length),
          c.delete (h1 ++ (pods.take i).map deleteEvent) (pods.get ⟨i, hi⟩) 5
            DeletionPropagation.Foreground ≠ none) ∧
      (pods = [] → (recreateNodeAgentPodsIfInvalidResolvConf ot c h resName).2 = h1)) := by
  have hspec := deletePodsLoop_spec c pods h1 true
  have hall : (deletePods c h1 pods).1 = true ↔
      ∀ (i : Nat) (hi : i < pods.length),
        c.delete (h1 ++ (pods.take i).map deleteEvent) (pods.get ⟨i, hi⟩) 5
          DeletionPropagation.Foreground = none := by
    unfold deletePods
    rw [hspec.2]
    simp
  refine ⟨hspec.1, hall, ?_⟩
  intro hid
  obtain ⟨ht, hres⟩ := recreateNodeAgentPods_of_identified ot c h resName pods h1 hid
  refine ⟨ht, ?_, ?_⟩
  · have hsome : (∃ err, (recreateNodeAgentPodsIfInvalidResolvConf ot c h resName).1 = some err) ↔
        ¬ (recreateNodeAgentPodsIfInvalidResolvConf ot c h resName).1 = none := by
      cases (recreateNodeAgentPodsIfInvalidResolvConf ot c h resName).1 <;> simp
    rw [hsome, hres, hall]
    constructor
    · intro hnot
      have hex : ∃ (i : Nat) (hi : i < pods.length),
          c.delete (h1 ++ (pods.take i).map deleteEvent) (pods.get ⟨i, hi⟩) 5
            DeletionPropagation.Foreground ≠ none := by
        by_contra hcon
        apply hnot
        intro i hi
        by_contra hne
        exact hcon ⟨i, hi, hne⟩
      refine ⟨?_, hex⟩
      rintro rfl
      obtain ⟨i, hi, _⟩ := hex
      exact absurd hi (Nat.not_lt_zero i)
    · rintro ⟨_, i, hi, hne⟩ hallok
      exact hne (hallok i hi)
  · rintro rfl
    simpa using ht

/-- Witness of C6: one pod is identified and its delete request fails. -/
theorem deletion_pass_exhaustive_witness :
    identifyPodsInCLBDueToInvalidResolvConf exampleTypes undeletableCluster [] =
      (([dnsPod], none),
       [listEvent exampleTypes,
        Event.GetLogs "nsx-system" "nsx-node-agent-dns"
          { Container := "nsx-node-agent", Previous := true, TailLines := some 50 },
        Event.GetLogs "nsx-system" "nsx-node-agent-other"
          { Container := "nsx-node-agent", Previous := true, TailLines := some 50 }]) ∧
    (recreateNodeAgentPodsIfInvalidResolvConf exampleTypes undeletableCluster []
        "nsx-node-agent").2 =
      [listEvent exampleTypes,
        Event.GetLogs "nsx-system" "nsx-node-agent-dns"
          { Container := "nsx-node-agent", Previous := true, TailLines := some 50 },
        Event.GetLogs "nsx-system" "nsx-node-agent-other"
          { Container := "nsx-node-agent", Previous := true, TailLines := some 50 }]
        ++ [Event.Delete dnsPod 5 DeletionPropagation.Foreground] ∧
    ∃ err, (recreateNodeAgentPodsIfInvalidResolvConf exampleTypes undeletableCluster []
        "nsx-node-agent").1 = some err := by
  have hid : identifyPodsInCLBDueToInvalidResolvConf exampleTypes undeletableCluster [] =
      (([dnsPod], none),
       [listEvent exampleTypes,
        Event.GetLogs "nsx-system" "nsx-node-agent-dns"
          { Container := "nsx-node-agent", Previous := true, TailLines := some 50 },
        Event.GetLogs "nsx-system" "nsx-node-agent-other"
          { Container := "nsx-node-agent", Previous := true, TailLines := some 50 }]) := by
    decide
  have key := (deletion_pass_exhaustive exampleTypes undeletableCluster [] "nsx-node-agent"
    [dnsPod] _).2.2 hid
  refine ⟨hid, key.1, key.2.1.mpr ⟨by simp, 0, by simp, by simp [undeletableCluster]⟩⟩

/-! ## The dispatcher -/

/-- C8: for a request whose namespace and name match no entry of
`nsxNcpResources`, `Reconcile` returns the empty result and no error and calls
no collaborator: the trace is unchanged. -/
theorem reconcile_unmanaged_noop (ot : OperatorTypes) (c : Cluster) (r : ReconcilePod)
    (h : List Event) (request : Request)
    (hno : ∀ res ∈ r.nsxNcpResources,
      ¬ (res.Namespace = request.Namespace ∧ res.Name = request.Name)) :
    Reconcile ot c r h request =
      (Res.ret ({ Requeue := false, RequeueAfter := 0 }, none), h) := by
  have hfalse : isForNsxNcpResource r request = false := by
    unfold isForNsxNcpResource
    rw [List.any_eq_false]
    intro res hmem
    simpa using hno res hmem
  unfold Reconcile
  simp [hfalse]

/-- Witness of C8: a request for the name of the NCP deployment in another
namespace. -/
theorem reconcile_unmanaged_noop_witness :
    Reconcile exampleTypes missingCluster readyReconciler []
        { Namespace := "default", Name := "nsx-ncp" } =
      (Res.ret ({ Requeue := false, RequeueAfter := 0 }, none), []) :=
  reconcile_unmanaged_noop exampleTypes missingCluster readyReconciler []
    { Namespace := "default", Name := "nsx-ncp" } (by decide)

/-- C7: for a request that matches an entry of `nsxNcpResources`, `Reconcile`
first issues `SetFromPods`, then runs the drift phase, which starts with the
existence read.  If the drift phase returns an error, the result is
`Requeue = true` with that error and the calls stop there.  The remediation
phase is entered (a list request is issued) exactly when the drift phase
returned nil and the request name is the node-agent daemon set name; if it
returns an error the result is `Requeue = true` with that error.  Otherwise the
result is `RequeueAfter = ResyncPeriod`, which is 2 minutes, and no error. -/
theorem reconcile_phases (ot : OperatorTypes) (c : Cluster) (r : ReconcilePod)
    (h : List Event) (request : Request)
    (hfor : ∃ res ∈ r.nsxNcpResources,
      res.Namespace = request.Namespace ∧ res.Name = request.Name) :
    (∃ evs, (driftPhase ot c r h request).2 =
      h ++ Event.SetFromPods :: getEvent ot request.Name :: evs) ∧
    (∃ evs, (Reconcile ot c r h request).2 = (driftPhase ot c r h request).2 ++ evs) ∧
    (∀ err, (driftPhase ot c r h request).1 = Res.ret (some err) →
      Reconcile ot c r h request =
        (Res.ret ({ Requeue := true, RequeueAfter := 0 }, some err),
         (driftPhase ot c r h request).2)) ∧
    ((driftPhase ot c r h request).1 = Res.ret none →
      request.Name ≠ ot.NsxNodeAgentDsName →
      Reconcile ot c r h request =
        (Res.ret ({ Requeue := false, RequeueAfter := ResyncPeriod }, none),
         (driftPhase ot c r h request).2)) ∧
    ((driftPhase ot c r h request).1 = Res.ret none →
      request.Name = ot.NsxNodeAgentDsName →
      (∀ err, (remediationPhase ot c r h request).1 = some err →
        Reconcile ot c r h request =
          (Res.ret ({ Requeue := true, RequeueAfter := 0 }, some err),
           (remediationPhase ot c r h request).2)) ∧
      ((remediationPhase ot c r h request).1 = none →
        Reconcile ot c r h request =
          (Res.ret ({ Requeue := false, RequeueAfter := ResyncPeriod }, none),
           (remediationPhase ot c r h request).2))) ∧
    ((∃ e ∈ (Reconcile ot c r h request).2.drop h.length, e.isList = true) ↔
      (driftPhase ot c r h request).1 = Res.ret none ∧
        request.Name = ot.NsxNodeAgentDsName) ∧
    ResyncPeriod = 2 * 60 * 1000000000 := by
  have hfor' : isForNsxNcpResource r request = true := by
    unfold isForNsxNcpResource
    rw [List.any_eq_true]
    obtain ⟨res, hmem, hns, hn⟩ := hfor
    exact ⟨res, hmem, by simp [hns, hn]⟩
  obtain ⟨evs, hdt, hnolist⟩ := recreate_trace ot c r (h ++ [Event.SetFromPods]) request.Name
  have hnol : ∀ e ∈ Event.SetFromPods :: getEvent ot request.Name :: evs,
      ¬ e.isList = true := by
    intro e he
    rcases List.mem_cons.mp he with rfl | he
    · simp [Event.isList]
    · rcases List.mem_cons.mp he with rfl | he
      · simp [Event.isList, getEvent]
      · simp [hnolist e he]
  rcases hD : driftPhase ot c r h request with ⟨res, h2⟩
  have hrec : recreateNsxNcpResourceIfDeleted ot c r (h ++ [Event.SetFromPods]) request.Name
      = (res, h2) := hD
  have hh2 : h2 = h ++ Event.SetFromPods :: getEvent ot request.Name :: evs := by
    rw [hrec] at hdt
    simpa using hdt
  have hrem : remediationPhase ot c r h request =
      recreateNodeAgentPodsIfInvalidResolvConf ot c h2 request.Name := by
    unfold remediationPhase
    rw [hD]
  have hnodrift : ¬ ∃ e ∈ List.drop h.length h2, e.isList = true := by
    rintro ⟨e, he, hl⟩
    rw [hh2, List.drop_left] at he
    exact hnol e he hl
  have hperiod : ResyncPeriod = 2 * 60 * 1000000000 := by decide
  refine ⟨⟨evs, hh2⟩, ?_⟩
  cases res with
  | panicked =>
    have hR : Reconcile ot c r h request = (Res.panicked, h2) := by
      unfold Reconcile
      simp [hfor', hrec]
    rw [hR]
    refine ⟨⟨[], by simp⟩, ?_, ?_, ?_, ?_, hperiod⟩
    · intro err he; cases he
    · intro he; cases he
    · intro he; cases he
    · constructor
      · intro hex; exact absurd hex hnodrift
      · rintro ⟨he, _⟩; cases he
  | ret a =>
    cases a with
    | some derr =>
      have hR : Reconcile ot c r h request =
          (Res.ret ({ Requeue := true, RequeueAfter := 0 }, some derr), h2) := by
        unfold Reconcile
        simp [hfor', hrec]
      rw [hR]
      refine ⟨⟨[], by simp⟩, ?_, ?_, ?_, ?_, hperiod⟩
      · intro err he
        cases he
        rfl
      · intro he; cases he
      · intro he; cases he
      · constructor
        · intro hex; exact absurd hex hnodrift
        · rintro ⟨he, _⟩; cases he
    | none =>
      by_cases hn : request.Name = ot.NsxNodeAgentDsName
      · obtain ⟨revs, hrt⟩ := recreateNodeAgentPods_trace ot c h2 request.Name
        rcases hr : recreateNodeAgentPodsIfInvalidResolvConf ot c h2 request.Name
          with ⟨rerr, h3⟩
        rw [hr] at hrt
        have hh3 : h3 = h2 ++ listEvent ot :: revs := hrt
        rw [hrem, hr]
        have hlist : ∃ e ∈ List.drop h.length h3, e.isList = true := by
          refine ⟨listEvent ot, ?_, by simp [listEvent, Event.isList]⟩
          rw [hh3, hh2, List.append_assoc, List.drop_left]
          simp
        cases rerr with
        | some rerr =>
          have hR : Reconcile ot c r h request =
              (Res.ret ({ Requeue := true, RequeueAfter := 0 }, some rerr), h3) := by
            unfold Reconcile
            rw [if_neg (by simp [hfor'])]
            simp only [hrec, if_pos hn, hr]
          rw [hR]
          refine ⟨⟨listEvent ot :: revs, hh3⟩, ?_, ?_, ?_, ?_, hperiod⟩
          · intro err he; cases he
          · intro _ hne; exact absurd hn hne
          · intro _ _
            refine ⟨?_, ?_⟩
            · intro err he
              cases he
              rfl
            · intro he; cases he
          · exact ⟨fun _ => ⟨rfl, hn⟩, fun _ => hlist⟩
        | none =>
          have hR : Reconcile ot c r h request =
              (Res.ret ({ Requeue := false, RequeueAfter := ResyncPeriod }, none), h3) := by
            unfold Reconcile
            rw [if_neg (by simp [hfor'])]
            simp only [hrec, if_pos hn, hr]
          rw [hR]
          refine ⟨⟨listEvent ot :: revs, hh3⟩, ?_, ?_, ?_, ?_, hperiod⟩
          · intro err he; cases he
          · intro _ hne; exact absurd hn hne
          · intro _ _
            refine ⟨?_, ?_⟩
            · intro err he; cases he
            · intro _; rfl
          · exact ⟨fun _ => ⟨rfl, hn⟩, fun _ => hlist⟩
      · have hR : Reconcile ot c r h request =
            (Res.ret ({ Requeue := false, RequeueAfter := ResyncPeriod }, none), h2) := by
          unfold Reconcile
          simp [hfor', hrec, hn]
        rw [hR]
        refine ⟨⟨[], by simp⟩, ?_, ?_, ?_, ?_, hperiod⟩
        · intro err he; cases he
        · intro _ _; rfl
        · intro _ hne; exact absurd hne hn
        · constructor
          · intro hex; exact absurd hex hnodrift
          · rintro ⟨_, hne⟩; exact absurd hne hn

/-- Witness of C7: a request for the node-agent daemon set, which exists, with
no pod listed: the status is refreshed, the read and the list request are
issued, and the next check is scheduled after two minutes. -/
theorem reconcile_phases_witness :
    Reconcile exampleTypes quietCluster readyReconciler []
        { Namespace := "nsx-system", Name := "nsx-node-agent" } =
      (Res.ret ({ Requeue := false, RequeueAfter := 120000000000 }, none),
       [Event.SetFromPods, getEvent exampleTypes "nsx-node-agent", listEvent exampleTypes]) := by
  have key := (reconcile_phases exampleTypes quietCluster readyReconciler []
    { Namespace := "nsx-system", Name := "nsx-node-agent" }
    ⟨{ Namespace := "nsx-system", Name := "nsx-node-agent" }, by decide, rfl, rfl⟩).2.2.2.2.1
    (by decide) rfl
  rw [key.2 (by decide)]
  decide

/-! ## Selection of the pods to restart -/

/-- When the loop over the first items completes without an error, the loop over
the whole list continues from there with the pods collected so far. -/
theorem identifyPodsLoop_append (ot : OperatorTypes) (c : Cluster) (pre rest : List Pod) :
    ∀ (h : List Event) (acc0 acc : List Pod) (h1 : List Event),
      identifyPodsLoop ot c h pre acc0 = ((acc, none), h1) →
      identifyPodsLoop ot c h (pre ++ rest) acc0 = identifyPodsLoop ot c h1 rest acc := by
  induction pre with
  | nil =>
    intro h acc0 acc h1 hpre
    simp only [identifyPodsLoop, Prod.mk.injEq, and_true] at hpre
    obtain ⟨rfl, rfl⟩ := hpre
    rfl
  | cons pod pre ih =>
    intro h acc0 acc h1 hpre
    rw [List.cons_append]
    simp only [identifyPodsLoop] at hpre ⊢
    cases hclb : isNodeAgentContainerInCLB ot pod with
    | false =>
      simp only [hclb, Bool.false_eq_true, if_false] at hpre ⊢
      exact ih h acc0 acc h1 hpre
    | true =>
      simp only [hclb, if_true] at hpre ⊢
      rcases hl : getContainerLogsInPod ot c h pod ot.NsxNodeAgentContainerName
        with ⟨⟨nodeAgentLogs, err⟩, t⟩
      rw [hl] at hpre
      cases err with
      | some err => simp at hpre
      | none =>
        simp only [] at hpre ⊢
        cases hsig : stringsContains nodeAgentLogs invalidResolvConfSignature with
        | true =>
          simp only [hsig, if_true] at hpre ⊢
          exact ih t _ acc h1 hpre
        | false =>
          simp only [hsig, Bool.false_eq_true, if_false] at hpre ⊢
          exact ih t _ acc h1 hpre

/-- C5: when the log retrieval fails for a listed pod in crash loop, after the
loop over the pods before it completed (whatever pods it had collected),
`identifyPodsInCLBDueToInvalidResolvConf` returns that error and no pod, and
`recreateNodeAgentPodsIfInvalidResolvConf` returns that error with no delete
request issued. -/
theorem log_retrieval_fail_closed (ot : OperatorTypes) (c : Cluster) (h : List Event)
    (resName : String) (pre post : List Pod) (pod : Pod) (acc : List Pod)
    (h1 h2 : List Event) (logs : String) (err : GoError)
    (hlist : c.list h [("component", ot.NsxNodeAgentDsName)] = Except.ok (pre ++ pod :: post))
    (hpre : identifyPodsLoop ot c (h ++ [listEvent ot]) pre [] = ((acc, none), h1))
    (hclb : isNodeAgentContainerInCLB ot pod = true)
    (hlog : getContainerLogsInPod ot c h1 pod ot.NsxNodeAgentContainerName
      = ((logs, some err), h2)) :
    identifyPodsInCLBDueToInvalidResolvConf ot c h = (([], some err), h2) ∧
    recreateNodeAgentPodsIfInvalidResolvConf ot c h resName = (some err, h2) ∧
    ∀ e ∈ h2.drop h.length, e.isDelete = false := by
  have hid : identifyPodsInCLBDueToInvalidResolvConf ot c h = (([], some err), h2) := by
    unfold listEvent at hpre
    unfold identifyPodsInCLBDueToInvalidResolvConf
    simp only [hlist]
    rw [identifyPodsLoop_append ot c pre (pod :: post) _ [] acc h1 hpre]
    simp only [identifyPodsLoop, hclb, if_true, hlog]
  refine ⟨hid, ?_, ?_⟩
  · unfold recreateNodeAgentPodsIfInvalidResolvConf
    rw [hid]
  · obtain ⟨evs, ht, hno⟩ := identifyPods_trace ot c h
    rw [hid] at ht
    simp only at ht
    intro e he
    rw [ht, List.drop_left] at he
    rcases List.mem_cons.mp he with rfl | he
    · simp [listEvent, Event.isDelete]
    · exact hno e he

/-- Witness of C5: the first pod in crash loop is classified as to restart, the
log of the second one cannot be retrieved. -/
theorem log_retrieval_fail_closed_witness :
    identifyPodsInCLBDueToInvalidResolvConf exampleTypes logFailureCluster [] =
      (([], some serverError),
       [listEvent exampleTypes,
        Event.GetLogs "nsx-system" "nsx-node-agent-dns"
          { Container := "nsx-node-agent", Previous := true, TailLines := some 50 },
        Event.GetLogs "nsx-system" "nsx-node-agent-other"
          { Container := "nsx-node-agent", Previous := true, TailLines := some 50 }]) ∧
    recreateNodeAgentPodsIfInvalidResolvConf exampleTypes logFailureCluster []
        "nsx-node-agent" =
      (some serverError,
       [listEvent exampleTypes,
        Event.GetLogs "nsx-system" "nsx-node-agent-dns"
          { Container := "nsx-node-agent", Previous := true, TailLines := some 50 },
        Event.GetLogs "nsx-system" "nsx-node-agent-other"
          { Container := "nsx-node-agent", Previous := true, TailLines := some 50 }]) := by
  have key := log_retrieval_fail_closed exampleTypes logFailureCluster [] "nsx-node-agent"
    [runningPod, dnsPod] [] otherCrashPod [dnsPod]
    [listEvent exampleTypes,
      Event.GetLogs "nsx-system" "nsx-node-agent-dns"
        { Container := "nsx-node-agent", Previous := true, TailLines := some 50 }]
    [listEvent exampleTypes,
      Event.GetLogs "nsx-system" "nsx-node-agent-dns"
        { Container := "nsx-node-agent", Previous := true, TailLines := some 50 },
      Event.GetLogs "nsx-system" "nsx-node-agent-other"
        { Container := "nsx-node-agent", Previous := true, TailLines := some 50 }]
    "" serverError rfl (by decide) (by decide) (by decide)
  exact ⟨key.1, key.2.1⟩

/-- When every log retrieval succeeds, the loop appends to the pods collected
so far the items in crash loop whose log contains the signature. -/
theorem identifyPodsLoop_filter (ot : OperatorTypes) (c : Cluster) (logTail : Pod → String)
    (items : List Pod) :
    ∀ (h : List Event) (acc : List Pod),
      (∀ pod ∈ items, isNodeAgentContainerInCLB ot pod = true →
        ∀ h', (getContainerLogsInPod ot c h' pod ot.NsxNodeAgentContainerName).1
          = (logTail pod, none)) →
      (identifyPodsLoop ot c h items acc).1 =
        (acc ++ items.filter (fun pod => isNodeAgentContainerInCLB ot pod &&
          stringsContains (logTail pod) invalidResolvConfSignature), none) := by
  induction items with
  | nil => intro h acc _; simp [identifyPodsLoop]
  | cons pod items ih =>
    intro h acc hlogs
    have hrest : ∀ pod' ∈ items, isNodeAgentContainerInCLB ot pod' = true →
        ∀ h', (getContainerLogsInPod ot c h' pod' ot.NsxNodeAgentContainerName).1
          = (logTail pod', none) :=
      fun pod' hmem => hlogs pod' (List.mem_cons_of_mem _ hmem)
    simp only [identifyPodsLoop]
    cases hclb : isNodeAgentContainerInCLB ot pod with
    | false =>
      simp only [Bool.false_eq_true, if_false]
      rw [ih h acc hrest, List.filter_cons]
      simp [hclb]
    | true =>
      simp only [if_true]
      have hl := hlogs pod (List.mem_cons_self _ _) hclb h
      rcases hg : getContainerLogsInPod ot c h pod ot.NsxNodeAgentContainerName
        with ⟨⟨nodeAgentLogs, err⟩, t⟩
      rw [hg] at hl
      simp only [Prod.mk.injEq] at hl
      obtain ⟨rfl, rfl⟩ := hl
      simp only []
      cases hsig : stringsContains (logTail pod) invalidResolvConfSignature with
      | true =>
        simp only [if_true]
        rw [ih t _ hrest, List.filter_cons]
        simp [hclb, hsig]
      | false =>
        simp only [Bool.false_eq_true, if_false]
        rw [ih t _ hrest, List.filter_cons]
        simp [hclb, hsig]

/-- C4: when the pod list and every log retrieval succeed,
`identifyPodsInCLBDueToInvalidResolvConf` returns, in list order, exactly the
listed pods for which `isNodeAgentContainerInCLB` holds and whose previous log
contains the signature; `isNodeAgentContainerInCLB` holds exactly when some
container status named as the node-agent container has a waiting state with
reason `CrashLoopBackOff`; and the delete requests issued by
`recreateNodeAgentPodsIfInvalidResolvConf` are those for the returned pods, so
no other pod is deleted. -/
theorem remediable_selection (ot : OperatorTypes) (c : Cluster) (h : List Event)
    (resName : String) (items : List Pod) (logTail : Pod → String)
    (hlist : c.list h [("component", ot.NsxNodeAgentDsName)] = Except.ok items)
    (hlogs : ∀ pod ∈ items, isNodeAgentContainerInCLB ot pod = true →
      ∀ h', (getContainerLogsInPod ot c h' pod ot.NsxNodeAgentContainerName).1
        = (logTail pod, none)) :
    (identifyPodsInCLBDueToInvalidResolvConf ot c h).1 =
      (items.filter (fun pod => isNodeAgentContainerInCLB ot pod &&
        stringsContains (logTail pod) invalidResolvConfSignature), none) ∧
    (∀ pod, isNodeAgentContainerInCLB ot pod = true ↔
      ∃ containerStatus ∈ pod.ContainerStatuses,
        containerStatus.Name = ot.NsxNodeAgentContainerName ∧
        ∃ waiting, containerStatus.State.Waiting = some waiting ∧
          waiting.Reason = "CrashLoopBackOff") ∧
    (∀ text, stringsContains text invalidResolvConfSignature = true ↔
      ("Failed to establish a new connection: [Errno -2] Name or service not known").data
        <:+: text.data) ∧
    ((recreateNodeAgentPodsIfInvalidResolvConf ot c h resName).2.drop h.length).filter
        Event.isDelete =
      (items.filter (fun pod => isNodeAgentContainerInCLB ot pod &&
        stringsContains (logTail pod) invalidResolvConfSignature)).map
          (fun pod => Event.Delete pod 5 DeletionPropagation.Foreground) := by
  have hsel : (identifyPodsInCLBDueToInvalidResolvConf ot c h).1 =
      (items.filter (fun pod => isNodeAgentContainerInCLB ot pod &&
        stringsContains (logTail pod) invalidResolvConfSignature), none) := by
    unfold identifyPodsInCLBDueToInvalidResolvConf
    simp only [hlist]
    rw [identifyPodsLoop_filter ot c logTail items _ [] hlogs]
    simp
  refine ⟨hsel, ?_, ?_, ?_⟩
  · intro pod
    unfold isNodeAgentContainerInCLB
    rw [List.any_eq_true]
    constructor
    · rintro ⟨cs, hmem, hcs⟩
      refine ⟨cs, hmem, ?_⟩
      by_cases hname : cs.Name = ot.NsxNodeAgentContainerName
      · rw [if_pos hname] at hcs
        cases hw : cs.State.Waiting with
        | none => rw [hw] at hcs; simp at hcs
        | some waiting =>
          rw [hw] at hcs
          exact ⟨hname, waiting, rfl, by simpa using hcs⟩
      · rw [if_neg hname] at hcs
        simp at hcs
    · rintro ⟨cs, hmem, hname, waiting, hw, hreason⟩
      refine ⟨cs, hmem, ?_⟩
      rw [if_pos hname, hw]
      simpa using hreason
  · intro text
    unfold stringsContains
    rw [decide_eq_true_iff]
    rfl
  · obtain ⟨evs, ht, hno⟩ := identifyPods_trace ot c h
    rcases hid : identifyPodsInCLBDueToInvalidResolvConf ot c h with ⟨⟨pods, err⟩, h1⟩
    rw [hid] at hsel ht
    simp only [Prod.mk.injEq] at hsel
    obtain ⟨rfl, rfl⟩ := hsel
    simp only at ht
    subst ht
    rw [(recreateNodeAgentPods_of_identified ot c h resName _ _ hid).1,
      List.append_assoc, List.drop_left, List.filter_append]
    have h1 : List.filter Event.isDelete (listEvent ot :: evs) = [] := by
      rw [List.filter_eq_nil_iff]
      intro e he
      rcases List.mem_cons.mp he with rfl | he
      · simp [listEvent, Event.isDelete]
      · simp [hno e he]
    have h2 : ∀ l : List Pod, List.filter Event.isDelete (l.map deleteEvent)
        = l.map deleteEvent := by
      intro l
      rw [List.filter_eq_self]
      intro e he
      obtain ⟨pod, _, rfl⟩ := List.mem_map.mp he
      rfl
    rw [h1, h2]
    rfl

/-- Witness of C4: of three listed pods, one runs, one is in crash loop with
the signature in its log and one is in crash loop for another cause; only the
second is returned and deleted. -/
theorem remediable_selection_witness :
    (identifyPodsInCLBDueToInvalidResolvConf exampleTypes crashLoopCluster []).1 =
      ([dnsPod], none) ∧
    ((recreateNodeAgentPodsIfInvalidResolvConf exampleTypes crashLoopCluster []
        "nsx-node-agent").2.drop 0).filter Event.isDelete =
      [Event.Delete dnsPod 5 DeletionPropagation.Foreground] := by
  have key := remediable_selection exampleTypes crashLoopCluster [] "nsx-node-agent"
    [runningPod, dnsPod, otherCrashPod] (fun pod => exampleLogOf pod.Name) rfl
    (by
      intro pod hmem _ h'
      simp only [List.mem_cons, List.mem_singleton, List.not_mem_nil, or_false] at hmem
      rcases hmem with rfl | rfl | rfl <;> rfl)
  exact ⟨key.1.trans (by decide), key.2.2.2.trans (by decide)⟩

end PodController
